import Mathlib

/-!
Shallow embedding of the speech-transcription service
(`src/speech-transcription/config.py` and `src/speech-transcription/main.py`).

External collaborators (librosa decoding, the Wav2Vec2 model forward pass and
tokenizer decode) are modelled as parameters: an uploaded file carries the
result librosa would produce for its bytes, and an `InferenceEnv` carries the
model/tokenizer functions.  Floating-point samples are modelled as rationals,
with an explicit `FVal` type recording the IEEE results NaN and ±Inf that
numpy produces on division by zero.
-/

namespace SpeechService

/-! ### config.py -/

def TARGET_SAMPLE_RATE : ℕ := 16000

def MAX_FILE_SIZE : ℕ := 50 * 1024 * 1024

def ALLOWED_AUDIO_TYPES : List String :=
  ["audio/wav", "audio/mpeg", "audio/mp3", "audio/flac", "audio/m4a",
   "audio/ogg", "audio/webm"]

def ALLOWED_EXTENSIONS : List String :=
  [".wav", ".mp3", ".flac", ".m4a", ".ogg", ".webm"]

def MODEL_NAME : String := "facebook/wav2vec2-base-960h"

/-! ### Floating-point values with NaN/Inf

numpy float division returns NaN for `0/0` and ±Inf for `x/0` with `x ≠ 0`;
ordinary quotients are modelled exactly as rationals. -/

inductive FVal where
  | num (q : ℚ)
  | nan
  | inf (positive : Bool)
deriving DecidableEq

/-- IEEE division of two rationals, with the zero-divisor cases made explicit. -/
def fdiv (x y : ℚ) : FVal :=
  if y = 0 then (if x = 0 then FVal.nan else FVal.inf (0 < x)) else FVal.num (x / y)

/-- `np.max(np.abs(audio))`: the peak absolute amplitude of a waveform
(`0` for the empty waveform, on which numpy would raise instead). -/
def npAbsMax (audio : List ℚ) : ℚ :=
  (audio.map (fun x => |x|)).foldr max 0

/-- The normalization step of `preprocess_audio` (main.py line 68):
`audio = audio / np.max(np.abs(audio))`, applied unconditionally to the
waveform librosa decoded.  There is no guard on a zero peak. -/
def preprocess_audio (audio : List ℚ) : List FVal :=
  audio.map (fun x => fdiv x (npAbsMax audio))

/-! ### Transcriber (`transcribe_audio`, main.py lines 75-93) -/

/-- Index of the first maximal entry, scanning from position `i` with current
best value `bv` at index `best`. -/
def argmaxFrom : ℕ → ℚ → ℕ → List ℚ → ℕ
  | _, _, best, [] => best
  | i, bv, best, x :: xs =>
      if bv < x then argmaxFrom (i + 1) x i xs else argmaxFrom (i + 1) bv best xs

/-- `torch.argmax` over one timestep's logit vector. -/
def argmaxIdx : List ℚ → ℕ
  | [] => 0
  | x :: xs => argmaxFrom 1 x 0 xs

/-- The external model and tokenizer held in process state once loaded:
`logits` is the Wav2Vec2 forward pass on a waveform (one logit vector per
output timestep), `decodeTokens` is `tokenizer.decode` (CTC collapse to
text), and `forwardError` is `some msg` when tensor conversion or the
forward pass raises with message `msg`. -/
structure InferenceEnv where
  logits : List FVal → List (List ℚ)
  decodeTokens : List ℕ → List Char
  forwardError : Option String

/-- Python `str.lower()` restricted to the basic latin range, as
`Char.toLower` is. -/
def pyLower (s : List Char) : List Char := s.map Char.toLower

/-- Python `str.strip()`: drop leading and trailing whitespace. -/
def pyStrip (s : List Char) : List Char :=
  ((s.dropWhile Char.isWhitespace).reverse.dropWhile Char.isWhitespace).reverse

/-- `transcribe_audio` (main.py lines 75-93) on the success path: greedy
argmax per timestep, tokenizer decode, then `.lower().strip()`. -/
def transcribe_audio (env : InferenceEnv) (audio : List FVal) : List Char :=
  pyStrip (pyLower (env.decodeTokens ((env.logits audio).map argmaxIdx)))

/-! ### Process-wide model state and `load_model` (main.py lines 36-59) -/

/-- The loaded Wav2Vec2 model object: its name plus whether `.to(device)`
and `.eval()` have been applied. -/
structure LoadedModel where
  name : String
  onDevice : Bool
  evalMode : Bool
deriving DecidableEq

/-- The three module-level globals `model`, `tokenizer`, `device`
(main.py lines 37-39), each `None` until assigned. -/
structure ModelState where
  model : Option LoadedModel
  tokenizer : Option String
  device : Option String
deriving DecidableEq

/-- The globals before any load: all `None`. -/
def initState : ModelState := ⟨none, none, none⟩

/-- The successive assignments in the `try` block of `load_model`
(main.py lines 47-53), in source order:
device, tokenizer, model, `model.to(device)`, `model.eval()`. -/
def loadSteps (cuda : Bool) : List (ModelState → ModelState) :=
  [ fun s => { s with device := some (if cuda then "cuda" else "cpu") },
    fun s => { s with tokenizer := some MODEL_NAME },
    fun s => { s with model := some ⟨MODEL_NAME, false, false⟩ },
    fun s => { s with model := s.model.map (fun m => { m with onDevice := true }) },
    fun s => { s with model := s.model.map (fun m => { m with evalMode := true }) } ]

/-- `load_model`: runs the steps in order; `failAt = some k` means step `k`
raises, so only the assignments before it take effect and the `except`
branch returns `False`.  `failAt = none` is a clean load returning `True`. -/
def load_model (cuda : Bool) (failAt : Option (Fin 5)) (s : ModelState) :
    ModelState × Bool :=
  match failAt with
  | none => ((loadSteps cuda).foldl (fun st f => f st) s, true)
  | some k => (((loadSteps cuda).take k.val).foldl (fun st f => f st) s, false)

/-! ### HTTP request handler `transcribe_file` (main.py lines 198-242) -/

/-- An uploaded multipart file as the handler sees it: declared content
type (`none` when the client sent no content type), byte size, and the
result librosa would produce when asked to decode its bytes at 16 kHz
(`Except.error msg` when decoding raises with message `msg`). -/
structure UploadFile where
  filename : String
  content_type : Option String
  size : ℕ
  decoded : Except String (List ℚ)

/-- `str(e)` for a starlette `HTTPException`: `"{status_code}: {detail}"`. -/
def excStr (status : ℕ) (detail : String) : String :=
  toString status ++ ": " ++ detail

/-- Whether the first list is an initial segment of the second. -/
def leadsWith : List Char → List Char → Bool
  | [], _ => true
  | _, [] => false
  | a :: as, b :: bs => a == b && leadsWith as bs

/-- Python `s.startswith(pre)`. -/
def strStartsWith (pre s : String) : Bool := leadsWith pre.data s.data

/-- The content-type validation at main.py line 207:
`not file.content_type or not file.content_type.startswith('audio/')`. -/
def badContentType : Option String → Bool
  | none => true
  | some s => s == "" || !(strStartsWith "audio/" s)

/-- The observable outcome of one `/transcribe` request: HTTP status,
error detail, response payload, and bookkeeping about the scratch file
and whether `preprocess_audio` ran. -/
structure TranscribeResult where
  status : ℕ
  detail : Option String
  respFilename : Option String
  transcription : Option (List Char)
  scratchCreated : Bool
  scratchDeleted : Bool
  preprocessInvoked : Bool
deriving DecidableEq

/-- `transcribe_file` (main.py lines 198-242).  Order of events: 503 check,
content-type check, temp-file creation, `preprocess_audio` (raises
`HTTPException(400, ...)` on decode failure), `transcribe_audio` (raises
`HTTPException(500, ...)` on forward-pass failure).  The blanket
`except Exception` at line 233 catches those `HTTPException`s too and
re-raises `HTTPException(500, str(e))`; the `finally` always unlinks the
temp file. -/
def transcribe_file (st : ModelState) (env : InferenceEnv) (file : UploadFile) :
    TranscribeResult :=
  if st.model.isNone || st.tokenizer.isNone then
    ⟨503, some "Model not loaded. Please check health endpoint.",
      none, none, false, false, false⟩
  else if badContentType file.content_type then
    ⟨400, some "Please upload an audio file", none, none, false, false, false⟩
  else
    match file.decoded with
    | Except.error msg =>
        ⟨500, some (excStr 400 ("Audio preprocessing failed: " ++ msg)),
          none, none, true, true, true⟩
    | Except.ok audio =>
        match env.forwardError with
        | some msg =>
            ⟨500, some (excStr 500 ("Transcription failed: " ++ msg)),
              none, none, true, true, true⟩
        | none =>
            ⟨200, none, some file.filename,
              some (transcribe_audio env (preprocess_audio audio)),
              true, true, true⟩

/-- `GET /models/info` (main.py lines 244-252): a literal dictionary,
computed from nothing. -/
def model_info (_st : ModelState) : List (String × String) :=
  [("model_name", "facebook/wav2vec2-base-960h"),
   ("model_type", "Wav2Vec2ForCTC"),
   ("supported_sample_rate", "16000 Hz"),
   ("supported_formats", "wav, mp3, flac, m4a, ogg")]

/-! ### Concrete fixtures used by witnesses and counterexamples -/

/-- An inference environment whose model emits no frames and never fails. -/
def trivEnv : InferenceEnv := ⟨fun _ => [], fun _ => [], none⟩

/-- The globals after a successful `load_model` on a CPU-only machine. -/
def loadedState : ModelState := (load_model false none initState).1

/-- A well-formed upload that decodes to a short waveform. -/
def sampleWav : UploadFile := ⟨"hello.wav", some "audio/wav", 64000, Except.ok [1, 0]⟩

/-- A 0-byte upload declared `audio/wav`; librosa raises on it. -/
def zeroByteWav : UploadFile :=
  ⟨"empty.wav", some "audio/wav", 0,
    Except.error "Error opening 'empty.wav': Format not recognised."⟩

/-- An upload over 50 MB whose declared type starts with `audio/` but is
outside `ALLOWED_AUDIO_TYPES`. -/
def oversizedAiff : UploadFile :=
  ⟨"big.aiff", some "audio/aiff", 60 * 1024 * 1024, Except.ok [1]⟩

/-- An upload sent without any content type. -/
def noCtFile : UploadFile :=
  ⟨"mystery.bin", none, 10, Except.error "Format not recognised."⟩

/-- An inference environment whose tokenizer decodes every id sequence to a
text with uppercase letters and surrounding whitespace. -/
def demoEnv : InferenceEnv :=
  ⟨fun _ => [], fun _ => "  HELLO World  ".data, none⟩

/-! ### Helper lemmas -/

/-- In every branch of `transcribe_file`, the scratch-deleted flag equals the
scratch-created flag: the `finally` unlink runs exactly when the temp file
was opened. -/
theorem scratchDeleted_eq_scratchCreated (st : ModelState) (env : InferenceEnv)
    (file : UploadFile) :
    (transcribe_file st env file).scratchDeleted =
      (transcribe_file st env file).scratchCreated := by
  unfold transcribe_file
  by_cases h1 : (st.model.isNone || st.tokenizer.isNone) = true
  · simp [h1]
  · by_cases h2 : badContentType file.content_type = true
    · simp [h1, h2]
    · cases hd : file.decoded with
      | error msg => simp [h1, h2, hd]
      | ok audio => cases hf : env.forwardError <;> simp [h1, h2, hd, hf]

/-! ### Claim theorems -/

/-- C1: the claim says peak normalization is guarded so that an all-zero
waveform yields no NaN/Inf.  The code divides unconditionally: on the silent
waveform `[0, 0, 0]` the peak is `0` and every sample becomes `0/0 = NaN`. -/
theorem silent_input_yields_nan :
    preprocess_audio [0, 0, 0] = [FVal.nan, FVal.nan, FVal.nan] := by decide

/-- C2: the claim says an undecodable upload (0-byte `audio/wav`) yields
HTTP 400.  The inner `HTTPException(400, ...)` raised by `preprocess_audio`
is caught by the handler's blanket `except Exception` and re-raised as 500,
so the endpoint actually returns 500 carrying the stringified 400 error. -/
theorem zero_byte_wav_returns_500_not_400 :
    (transcribe_file loadedState trivEnv zeroByteWav).status = 500 ∧
    (transcribe_file loadedState trivEnv zeroByteWav).status ≠ 400 ∧
    (transcribe_file loadedState trivEnv zeroByteWav).detail =
      some "400: Audio preprocessing failed: Error opening 'empty.wav': Format not recognised." := by
  refine ⟨by decide, by decide, by decide⟩

/-- C3 counterexample: a load failure while loading the tokenizer (step 1)
leaves `device` set, so the state is not entirely unset; and a failure in
`model.to(device)` (step 3) leaves `model` and `tokenizer` set, so a
subsequent request is served (200), not rejected. -/
theorem load_failure_partial_state :
    (load_model true (some 1) initState).1 ≠ initState ∧
    (load_model true (some 1) initState).1.device = some "cuda" ∧
    (transcribe_file (load_model true (some 3) initState).1 trivEnv sampleWav).status
      = 200 := by
  refine ⟨by decide, by decide, by decide⟩

/-- C3 amended: if loading fails at or before the `model` assignment
(device creation, tokenizer load, or model load), `load_model` returns
`False`, the `model` global stays `None` (though `device`/`tokenizer` may
already be set), and every subsequent request is rejected with 503. -/
theorem load_failure_rejected (cuda : Bool) (k : Fin 5) (h : k.val ≤ 2)
    (env : InferenceEnv) (file : UploadFile) :
    (load_model cuda (some k) initState).2 = false ∧
    (load_model cuda (some k) initState).1.model = none ∧
    (transcribe_file (load_model cuda (some k) initState).1 env file).status = 503 := by
  fin_cases k
  · exact ⟨rfl, rfl, rfl⟩
  · exact ⟨rfl, rfl, rfl⟩
  · exact ⟨rfl, rfl, rfl⟩
  · exact absurd h (by decide)
  · exact absurd h (by decide)

/-- C3 witness: the amended theorem at a concrete failing load (tokenizer
load fails on a CUDA machine). -/
theorem load_failure_rejected_witness :
    (load_model true (some 1) initState).2 = false ∧
    (load_model true (some 1) initState).1.model = none ∧
    (transcribe_file (load_model true (some 1) initState).1 trivEnv sampleWav).status
      = 503 :=
  load_failure_rejected true 1 (by decide) trivEnv sampleWav

/-- C4: while `model` is unset, `/transcribe` returns 503 and never invokes
`preprocess_audio`. -/
theorem unloaded_model_rejected (st : ModelState) (env : InferenceEnv)
    (file : UploadFile) (h : st.model = none) :
    (transcribe_file st env file).status = 503 ∧
    (transcribe_file st env file).preprocessInvoked = false := by
  simp [transcribe_file, h]

/-- C4 witness: a concrete request against the unloaded initial state. -/
theorem unloaded_model_rejected_witness :
    (transcribe_file initState trivEnv sampleWav).status = 503 ∧
    (transcribe_file initState trivEnv sampleWav).preprocessInvoked = false :=
  unloaded_model_rejected initState trivEnv sampleWav rfl

/-- C5: every request that creates a scratch file also deletes it, in every
outcome (success, preprocessing failure, inference failure): the cleanup is
in a `finally` block. -/
theorem scratch_file_never_outlives_request (st : ModelState) (env : InferenceEnv)
    (file : UploadFile) (h : (transcribe_file st env file).scratchCreated = true) :
    (transcribe_file st env file).scratchDeleted = true := by
  rw [scratchDeleted_eq_scratchCreated, h]

/-- C5 witness: a concrete successful request creates and deletes its
scratch file. -/
theorem scratch_file_never_outlives_request_witness :
    (transcribe_file loadedState trivEnv sampleWav).scratchDeleted = true :=
  scratch_file_never_outlives_request loadedState trivEnv sampleWav (by decide)

/-- C6 counterexample: a 60 MB upload declared `audio/aiff` — over the 50 MB
limit and outside `ALLOWED_AUDIO_TYPES` — is nevertheless accepted and
served with 200: `main.py` never reads `config.py`'s limits. -/
theorem upload_limits_counterexample :
    oversizedAiff.size > MAX_FILE_SIZE ∧
    ¬("audio/aiff" ∈ ALLOWED_AUDIO_TYPES) ∧
    (transcribe_file loadedState trivEnv oversizedAiff).status = 200 := by
  refine ⟨by decide, by decide, by decide⟩

/-- C6 amended: the declared limits are not enforced.  The handler's result
is independent of the upload's size, and once the state is loaded the only
content-type requirement is the `audio/` prefix: any such request passes
validation (the scratch file is created and processing proceeds), even one
outside the allowlist or over 50 MB. -/
theorem upload_limits_unenforced (st : ModelState) (env : InferenceEnv)
    (file : UploadFile) (n : ℕ) (m : LoadedModel) (tk : String)
    (hm : st.model = some m) (ht : st.tokenizer = some tk)
    (s : String) (hct : file.content_type = some s)
    (hpre : strStartsWith "audio/" s = true) (hne : s ≠ "") :
    transcribe_file st env { file with size := n } = transcribe_file st env file ∧
    (transcribe_file st env file).scratchCreated = true := by
  constructor
  · rfl
  · have hbct : badContentType file.content_type = false := by
      simp [badContentType, hct, hpre, hne]
    simp only [transcribe_file, hm, ht, hbct]
    cases hd : file.decoded with
    | error msg => simp
    | ok audio => cases hf : env.forwardError <;> simp

/-- C6 witness: the amended theorem at the concrete oversized out-of-list
upload. -/
theorem upload_limits_unenforced_witness :
    transcribe_file loadedState trivEnv { oversizedAiff with size := 0 } =
      transcribe_file loadedState trivEnv oversizedAiff ∧
    (transcribe_file loadedState trivEnv oversizedAiff).scratchCreated = true :=
  upload_limits_unenforced loadedState trivEnv oversizedAiff 0
    ⟨MODEL_NAME, true, true⟩ MODEL_NAME (by decide) (by decide)
    "audio/aiff" rfl (by decide) (by decide)

/-- Every element's absolute value is bounded by the peak. -/
theorem le_npAbsMax {x : ℚ} {l : List ℚ} (hx : x ∈ l) : |x| ≤ npAbsMax l := by
  induction l with
  | nil => simp at hx
  | cons a as ih =>
    simp only [npAbsMax, List.map_cons, List.foldr_cons]
    rcases List.mem_cons.mp hx with rfl | hmem
    · exact le_max_left _ _
    · exact le_trans (ih hmem) (le_max_right _ _)

/-- A waveform with a nonzero sample has a positive peak. -/
theorem npAbsMax_pos {x : ℚ} {l : List ℚ} (hx : x ∈ l) (h0 : x ≠ 0) :
    0 < npAbsMax l :=
  lt_of_lt_of_le (abs_pos.mpr h0) (le_npAbsMax hx)

/-- Dividing every sample by a positive constant divides the peak by it. -/
theorem npAbsMax_map_div (l : List ℚ) {m : ℚ} (hm : 0 < m) :
    npAbsMax (l.map (fun a => a / m)) = npAbsMax l / m := by
  induction l with
  | nil => simp [npAbsMax]
  | cons a as ih =>
    simp only [npAbsMax, List.map_cons, List.foldr_cons] at ih ⊢
    rw [abs_div, abs_of_pos hm, ih, max_div_div_right hm.le]

/-- C7: on a waveform with some nonzero sample, `preprocess_audio` divides
each sample by the peak (no NaN/Inf arises) and the peak absolute value of
the result is exactly 1. -/
theorem nonsilent_peak_normalizes_to_one (audio : List ℚ) (x : ℚ)
    (hx : x ∈ audio) (hx0 : x ≠ 0) :
    preprocess_audio audio = audio.map (fun a => FVal.num (a / npAbsMax audio)) ∧
    npAbsMax (audio.map (fun a => a / npAbsMax audio)) = 1 := by
  have hm : 0 < npAbsMax audio := npAbsMax_pos hx hx0
  constructor
  · simp [preprocess_audio, fdiv, hm.ne']
  · rw [npAbsMax_map_div audio hm, div_self hm.ne']

/-- C7 witness: the concrete waveform `[2, -1/2]` normalizes to peak 1. -/
theorem nonsilent_peak_normalizes_to_one_witness :
    preprocess_audio [(2 : ℚ), -(1 / 2)] =
      [(2 : ℚ), -(1 / 2)].map (fun a => FVal.num (a / npAbsMax [(2 : ℚ), -(1 / 2)])) ∧
    npAbsMax ([(2 : ℚ), -(1 / 2)].map (fun a => a / npAbsMax [(2 : ℚ), -(1 / 2)])) = 1 :=
  nonsilent_peak_normalizes_to_one [(2 : ℚ), -(1 / 2)] 2 (by simp) (by norm_num)

/-- C9: `GET /models/info` ignores all process state and always answers the
same payload, carrying the model identifier, architecture family, sample
rate, and format list. -/
theorem models_info_fixed (s t : ModelState) :
    model_info s = model_info t ∧
    (model_info s).lookup "model_name" = some MODEL_NAME ∧
    (model_info s).lookup "model_type" = some "Wav2Vec2ForCTC" ∧
    (model_info s).lookup "supported_sample_rate" = some "16000 Hz" ∧
    (model_info s).lookup "supported_formats" = some "wav, mp3, flac, m4a, ogg" :=
  ⟨rfl, by simp [model_info, MODEL_NAME, List.lookup],
    by simp [model_info, List.lookup], by simp [model_info, List.lookup],
    by simp [model_info, List.lookup]⟩

/-- C10: with the model loaded, a request with a missing or empty content
type is rejected with 400 before the temp file is opened. -/
theorem missing_content_type_rejected (st : ModelState) (env : InferenceEnv)
    (file : UploadFile) (m : LoadedModel) (tk : String)
    (hm : st.model = some m) (ht : st.tokenizer = some tk)
    (hct : file.content_type = none ∨ file.content_type = some "") :
    (transcribe_file st env file).status = 400 ∧
    (transcribe_file st env file).scratchCreated = false := by
  rcases hct with h | h <;> simp [transcribe_file, hm, ht, badContentType, h]

/-- C10 witness: a concrete upload with no declared content type. -/
theorem missing_content_type_rejected_witness :
    (transcribe_file loadedState trivEnv noCtFile).status = 400 ∧
    (transcribe_file loadedState trivEnv noCtFile).scratchCreated = false :=
  missing_content_type_rejected loadedState trivEnv noCtFile
    ⟨MODEL_NAME, true, true⟩ MODEL_NAME (by decide) (by decide) (Or.inl rfl)

/-- `UInt32` order agrees with the order of the underlying naturals. -/
theorem uint32_le_iff (a b : UInt32) : a ≤ b ↔ a.toNat ≤ b.toNat := by
  rw [UInt32.le_def, BitVec.le_def]
  exact Iff.rfl

/-- `Char.isUpper` restated over the code point as a natural number. -/
theorem char_isUpper_eq (x : Char) :
    x.isUpper = (decide (65 ≤ x.toNat) && decide (x.toNat ≤ 90)) := by
  simp only [Char.isUpper, ge_iff_le]
  congr 1

/-- Lowercasing a character never yields an uppercase letter. -/
theorem toLower_isUpper (c : Char) : (Char.toLower c).isUpper = false := by
  rw [Char.toLower]
  by_cases h : c.toNat ≥ 65 ∧ c.toNat ≤ 90
  · rw [if_pos h]
    have hv : (c.toNat + 32).isValidChar := Or.inl (by omega)
    have ht : (Char.ofNat (c.toNat + 32)).toNat = c.toNat + 32 := by
      rw [Char.ofNat, dif_pos hv]
      simp [Char.ofNatAux, Char.toNat, UInt32.toNat]
    rw [char_isUpper_eq, ht]
    simp only [Bool.and_eq_false_iff, decide_eq_false_iff_not]
    right
    omega
  · rw [if_neg h]
    rw [char_isUpper_eq]
    simp only [Bool.and_eq_false_iff, decide_eq_false_iff_not]
    omega

/-- The head of `dropWhile p` never satisfies `p`. -/
theorem head_dropWhile_false {p : Char → Bool} {l : List Char} {c : Char}
    (h : (l.dropWhile p).head? = some c) : p c = false := by
  have := List.head?_dropWhile_not p l
  rw [h] at this
  exact this

/-- Dropping a prefix leaves the last element unchanged when anything
remains. -/
theorem getLast_dropWhile_ne_nil {p : Char → Bool} {l : List Char}
    (h : l.dropWhile p ≠ []) : (l.dropWhile p).getLast? = l.getLast? := by
  induction l with
  | nil => simp at h
  | cons a as ih =>
    rw [List.dropWhile_cons] at h ⊢
    by_cases hp : p a = true
    · rw [if_pos hp] at h ⊢
      have has : as ≠ [] := by
        intro e
        rw [e] at h
        simp at h
      rw [ih h]
      cases as with
      | nil => exact absurd rfl has
      | cons b bs => simp
    · rw [if_neg hp]

/-- Stripping only removes characters. -/
theorem mem_pyStrip {c : Char} {l : List Char} (h : c ∈ pyStrip l) : c ∈ l := by
  unfold pyStrip at h
  rw [List.mem_reverse] at h
  have h1 := (List.dropWhile_sublist Char.isWhitespace).subset h
  rw [List.mem_reverse] at h1
  exact (List.dropWhile_sublist Char.isWhitespace).subset h1

/-- A stripped string never starts with whitespace. -/
theorem pyStrip_head {l : List Char} {c : Char}
    (h : (pyStrip l).head? = some c) : c.isWhitespace = false := by
  unfold pyStrip at h
  rw [List.head?_reverse] at h
  have hne :
      (l.dropWhile Char.isWhitespace).reverse.dropWhile Char.isWhitespace ≠ [] := by
    intro e
    rw [e] at h
    simp at h
  rw [getLast_dropWhile_ne_nil hne, List.getLast?_reverse] at h
  exact head_dropWhile_false h

/-- A stripped string never ends with whitespace. -/
theorem pyStrip_getLast {l : List Char} {c : Char}
    (h : (pyStrip l).getLast? = some c) : c.isWhitespace = false := by
  unfold pyStrip at h
  rw [List.getLast?_reverse] at h
  exact head_dropWhile_false h

/-- C8: a successful transcription is the tokenizer's decoded text
lowercased and stripped; it contains no uppercase letter and neither starts
nor ends with whitespace. -/
theorem transcript_lower_trimmed (env : InferenceEnv) (audio : List FVal) :
    transcribe_audio env audio =
      pyStrip (pyLower (env.decodeTokens ((env.logits audio).map argmaxIdx))) ∧
    (∀ c ∈ transcribe_audio env audio, c.isUpper = false) ∧
    (∀ c, (transcribe_audio env audio).head? = some c → c.isWhitespace = false) ∧
    (∀ c, (transcribe_audio env audio).getLast? = some c → c.isWhitespace = false) := by
  refine ⟨rfl, ?_, ?_, ?_⟩
  · intro c hc
    have hm : c ∈ pyLower (env.decodeTokens ((env.logits audio).map argmaxIdx)) :=
      mem_pyStrip hc
    rcases List.mem_map.mp hm with ⟨d, _, rfl⟩
    exact toLower_isUpper d
  · intro c hc
    exact pyStrip_head hc
  · intro c hc
    exact pyStrip_getLast hc

/-- C8 witness: the theorem at a concrete environment whose tokenizer
answers a padded mixed-case text, on the empty waveform. -/
theorem transcript_lower_trimmed_witness :
    transcribe_audio demoEnv [] =
      pyStrip (pyLower (demoEnv.decodeTokens ((demoEnv.logits []).map argmaxIdx))) ∧
    (∀ c ∈ transcribe_audio demoEnv [], c.isUpper = false) ∧
    (∀ c, (transcribe_audio demoEnv []).head? = some c → c.isWhitespace = false) ∧
    (∀ c, (transcribe_audio demoEnv []).getLast? = some c → c.isWhitespace = false) :=
  transcript_lower_trimmed demoEnv []

end SpeechService
